import Mathlib

/-!
Verification of the SKU price-regulation frontend (sku-system-frontend).

The first half of this file embeds the TypeScript source as executable
Lean definitions (components become pure render/effect functions, API and
interceptor behaviour becomes explicit state passing); the second half
proves the specification claims about those definitions.
-/

namespace SKUFrontend

/-! ## Data model (types/index.ts)
Plain DTO structures mirrored from API responses.  Fields that none of the
embedded functions consult (timestamps, display strings, audit metadata)
are omitted; prices are rationals. -/

/-- The role union type of User (types/index.ts). -/
inductive Role
  | gov_admin
  | retailer
  | farmer
deriving DecidableEq, Repr

/-- District DTO (id and name; the tree fields are never consulted). -/
structure District where
  id : Nat
  name : String
deriving DecidableEq, Repr

/-- SKU DTO (id and name; category/unit/description are display-only). -/
structure SKU where
  id : Nat
  name : String
deriving DecidableEq, Repr

/-- ReferencePrice DTO: government ceiling price for a SKU, district-scoped
when the district field is non-null. -/
structure ReferencePrice where
  id : Nat
  sku : SKU
  district : Option District
  price : ℚ
deriving DecidableEq, Repr

/-- PublishedPrice DTO: a retailer's declared price with the server-computed
compliance verdict and markup. -/
structure PublishedPrice where
  id : Nat
  sku : SKU
  district : District
  price : ℚ
  compliant : Bool
  markup_percentage : ℚ
deriving DecidableEq, Repr

/-! ## Auth state and the ProtectedRoute guard
Embedding of src/components/layout/ProtectedRoute.tsx together with the
auth state it consumes from src/contexts/AuthContext.tsx. -/

/-- AuthContext.tsx: isAuthenticated is defined as double negation of the
user object, i.e. whether a user is present. -/
def isAuthenticatedOf (user : Option Role) : Bool :=
  user.isSome

/-- Redirect target chosen by ProtectedRoute for a user whose role is not
allowed: the if/else-if chain over user.role. -/
def dashboardFor : Role → String
  | .gov_admin => "/dashboard/admin"
  | .retailer => "/dashboard/retailer"
  | .farmer => "/dashboard/farmer"

/-- A navigation side effect of the ProtectedRoute useEffect: either no
navigation or router.push to a target path. -/
inductive NavAction
  | stay
  | push (target : String)
deriving DecidableEq, Repr

/-- What the ProtectedRoute component body returns. -/
inductive RouteRender
  | spinner
  | nothing
  | childrenOut
deriving DecidableEq, Repr

/-- The useEffect body of ProtectedRoute: while loading it does nothing;
otherwise it pushes /login for an unauthenticated visitor, and pushes the
role dashboard for an authenticated user whose role is not allowed. -/
def protectedRouteEffect (isLoading isAuthenticated : Bool) (user : Option Role)
    (allowedRoles : List Role) : NavAction :=
  if isLoading then .stay
  else if !isAuthenticated then .push "/login"
  else match user with
    | some u => if !(allowedRoles.contains u) then .push (dashboardFor u) else .stay
    | none => .stay

/-- The render body of ProtectedRoute: spinner while loading, null when
unauthenticated or when the role is outside allowedRoles, children
otherwise. -/
def protectedRouteRender (isLoading isAuthenticated : Bool) (user : Option Role)
    (allowedRoles : List Role) : RouteRender :=
  if isLoading then .spinner
  else if !isAuthenticated then .nothing
  else match user with
    | some u => if !(allowedRoles.contains u) then .nothing else .childrenOut
    | none => .childrenOut

/-! ## Admin complaint management
Embedding of src/components/admin/ComplaintManagement.tsx. -/

/-- A status-changing control that ComplaintManagement can offer for a
complaint: the Start Review button (handleUpdateStatus to under_review) and
the Resolve button (opens the resolution modal / resolveComplaint). -/
inductive ComplaintControl
  | startReview
  | resolve
deriving DecidableEq, Repr

/-- Status the Start Review button requests: handleUpdateStatus(id,
under_review). -/
def startReviewTargetStatus : String := "under_review"

/-- Status-changing buttons rendered on a complaint's list card, guarded by
the two status equality checks in the JSX. -/
def listCardControls (status : String) : List ComplaintControl :=
  (if status = "pending" then [.startReview] else []) ++
  (if status = "under_review" then [.resolve] else [])

/-- Status-changing buttons rendered at the bottom of the detail modal for
the selected complaint; the guards are the same two equality checks. -/
def detailModalControls (status : String) : List ComplaintControl :=
  (if status = "pending" then [.startReview] else []) ++
  (if status = "under_review" then [.resolve] else [])

/-- The complaint status union type (Complaint.status in types/index.ts). -/
def complaintStatusValues : List String :=
  ["pending", "under_review", "investigation", "waiting_response",
   "resolved", "rejected", "closed"]

/-- Options of the ComplaintManagement status filter dropdown. -/
def statusFilterOptions : List String :=
  ["all", "pending", "under_review", "investigation", "waiting_response",
   "resolved", "rejected", "closed"]

/-- The getStatusColor switch of ComplaintManagement.tsx. -/
def getStatusColor (status : String) : String :=
  if status = "pending" then "bg-yellow-100 text-yellow-800"
  else if status = "under_review" then "bg-blue-100 text-blue-800"
  else if status = "investigation" then "bg-purple-100 text-purple-800"
  else if status = "waiting_response" then "bg-orange-100 text-orange-800"
  else if status = "resolved" then "bg-green-100 text-green-800"
  else if status = "rejected" then "bg-red-100 text-red-800"
  else if status = "closed" then "bg-gray-100 text-gray-800"
  else "bg-gray-100 text-gray-800"

/-- The getStatusIcon switch of ComplaintManagement.tsx, as icon names. -/
def getStatusIcon (status : String) : String :=
  if status = "pending" then "ClockIcon"
  else if status = "under_review" then "EyeIcon"
  else if status = "investigation" then "ExclamationTriangleIcon"
  else if status = "waiting_response" then "ClockIcon"
  else if status = "resolved" then "CheckCircleIcon"
  else if status = "rejected" then "XCircleIcon"
  else if status = "closed" then "XCircleIcon"
  else "ClockIcon"

/-! ## Reference price lookup
Embedding of getReferencePrice in the retailer PriceManagement component
(src/unnamed/part_005). -/

/-- Predicate of the district-specific find: ref.sku.id === skuId and
ref.district?.id === districtId (optional chaining: a null district never
matches a number). -/
def districtRefMatch (skuId dId : Nat) (r : ReferencePrice) : Bool :=
  r.sku.id == skuId &&
    (match r.district with
     | some d => d.id == dId
     | none => false)

/-- Predicate of the global-fallback find: ref.sku.id === skuId and
ref.district === null. -/
def globalRefMatch (skuId : Nat) (r : ReferencePrice) : Bool :=
  r.sku.id == skuId && r.district.isNone

/-- getReferencePrice from PriceManagement: when the district id argument is
truthy (present and nonzero, since JavaScript treats 0 as falsy in
if (districtId)) it first looks for a district-specific reference price and
returns it if found; in every other case it returns the result of the
global lookup (the first price for the SKU whose district is null, or
nothing). -/
def getReferencePrice (skuId : Nat) (districtId : Option Nat)
    (refs : List ReferencePrice) : Option ReferencePrice :=
  match districtId with
  | some dId =>
    if dId ≠ 0 then
      match refs.find? (districtRefMatch skuId dId) with
      | some r => some r
      | none => refs.find? (globalRefMatch skuId)
    else refs.find? (globalRefMatch skuId)
  | none => refs.find? (globalRefMatch skuId)

/-- Concrete district with id 0 for exercising the truthiness check. -/
def zeroDistrict : District := { id := 0, name := "Zone Zero" }

/-- Concrete SKU used by the concrete instances below. -/
def ureaSKU : SKU := { id := 1, name := "Urea" }

/-- A reference price scoped to the id-0 district for SKU 1. -/
def zeroScopedRef : ReferencePrice :=
  { id := 10, sku := ureaSKU, district := some zeroDistrict, price := 50 }

/-- Concrete district with id 7 for the lookup instances. -/
def hillDistrict : District := { id := 7, name := "Hill" }

/-- A global (district-null) reference price for SKU 1. -/
def globalUreaRef : ReferencePrice :=
  { id := 2, sku := ureaSKU, district := none, price := 40 }

/-- A reference price for SKU 1 scoped to district 7. -/
def hillUreaRef : ReferencePrice :=
  { id := 3, sku := ureaSKU, district := some hillDistrict, price := 55 }

/-! ## API client response interceptor
Embedding of the axios response interceptor of src/lib/api.ts as explicit
state passing over the localStorage token store. -/

/-- A token pair as returned by the refresh endpoint. -/
structure Tokens where
  access : String
  refresh : String
deriving DecidableEq, Repr

/-- The localStorage token slots managed by the ApiClient. -/
structure TokenStore where
  access : Option String
  refresh : Option String
deriving DecidableEq, Repr

/-- The part of a failed request the interceptor consults:
error.response?.status (none when there was no response) and the _retry
flag on error.config. -/
structure FailedRequest where
  status : Option Nat
  retryFlag : Bool
deriving DecidableEq, Repr

/-- Outcome of the awaited refreshToken call: a new token pair, or a
rejection (which lands in the catch block). -/
inductive RefreshOutcome
  | success (t : Tokens)
  | failure
deriving DecidableEq, Repr

/-- What the interceptor resolves to: pass the error through
(Promise.reject), re-send the original request with a bearer header, or
navigate the browser to /login. -/
inductive InterceptorResult
  | passThrough
  | resend (req : FailedRequest) (bearer : String)
  | redirectLogin
deriving DecidableEq, Repr

/-- The response interceptor error branch of ApiClient: on a 401 whose
request has not been retried it sets _retry, and if a refresh token is
stored it refreshes; on refresh success it stores the new pair and
re-sends the original request with the new access token, on refresh
failure it clears both tokens and redirects to /login; in every other
case the error is passed through and the store is untouched.  (The
re-sent request is returned without await, so its own failure does not
reach this catch block.) -/
def responseInterceptor (req : FailedRequest) (store : TokenStore)
    (refreshOutcome : RefreshOutcome) : InterceptorResult × TokenStore :=
  if req.status = some 401 ∧ req.retryFlag = false then
    match store.refresh with
    | some _ =>
      match refreshOutcome with
      | .success t =>
        (.resend { req with retryFlag := true } t.access,
         { access := some t.access, refresh := some t.refresh })
      | .failure => (.redirectLogin, { access := none, refresh := none })
    | none => (.passThrough, store)
  else (.passThrough, store)

/-- Concrete token store holding both tokens. -/
def storedTokens : TokenStore := { access := some "a0", refresh := some "r0" }

/-- Concrete refreshed token pair. -/
def freshTokens : Tokens := { access := "a1", refresh := "r1" }

/-! ## Retailer price management
Embedding of the PriceManagement component (src/unnamed/part_005):
the publish-price form submit pipeline and the create-mutation error
handler. -/

/-- The processed payload built in onSubmit: sku_id through parseInt,
price through parseFloat, district_id through parseInt when the field is
truthy and undefined otherwise.  none models NaN for sku_id and an absent
district_id. -/
structure ProcessedPriceData where
  sku_id : Option Nat
  price : Option ℚ
  district_id : Option Nat
deriving DecidableEq, Repr

/-- The error payload shapes the createPriceMutation onError handler
distinguishes: no response data, an array of messages, an object of field
errors, or a primitive. -/
inductive ServerErrorData
  | missing
  | arr (msgs : List String)
  | fieldErrors (fields : List (String × List String))
  | primitive (s : String)

/-- The overlap message the handler looks for in a server error array. -/
def overlapServerMsg : String :=
  "Published price period overlaps with existing active price."

/-- The message the handler sets for the user on an overlap error. -/
def duplicateActiveNotice : String :=
  "You already have an active price for this product. Please edit the existing price or wait for it to expire."

/-- The lookup of the retailer's existing published price for the submitted
SKU: results.find(price => price.sku.id === currentData.sku_id).  A NaN
sku_id (none) strict-equals nothing. -/
def existingPriceFor (v : ProcessedPriceData) (prices : List PublishedPrice) :
    Option PublishedPrice :=
  match v.sku_id with
  | some n => prices.find? (fun p => p.sku.id == n)
  | none => none

/-- Result of the onError handler: the message passed to setError, the
price handleEdit is scheduled on (via setTimeout) if any, and the HTTP
calls the handler itself issues — the handler body contains no apiClient
call, so this list is always empty. -/
structure CreateErrorOutcome where
  errorMsg : String
  scheduledEdit : Option PublishedPrice
  apiCalls : List String
deriving DecidableEq, Repr

/-- The createPriceMutation onError handler: an error array containing the
overlap message sets the duplicate notice and schedules handleEdit on the
retailer's existing price for the submitted SKU (when mutation variables
and the published-price list are available); any other array or object
joins its messages; anything else falls back to getErrorMessage (passed in
as fallbackMsg, since lib/utils is not part of the supplied sources). -/
def onCreatePriceError (errorData : ServerErrorData)
    (mutationVars : Option ProcessedPriceData)
    (publishedPrices : Option (List PublishedPrice))
    (fallbackMsg : String) : CreateErrorOutcome :=
  match errorData with
  | .missing => { errorMsg := fallbackMsg, scheduledEdit := none, apiCalls := [] }
  | .arr msgs =>
    if msgs.contains overlapServerMsg then
      { errorMsg := duplicateActiveNotice,
        scheduledEdit :=
          match mutationVars, publishedPrices with
          | some v, some prices => existingPriceFor v prices
          | _, _ => none,
        apiCalls := [] }
    else
      { errorMsg := String.intercalate ", " msgs, scheduledEdit := none,
        apiCalls := [] }
  | .fieldErrors fields =>
    { errorMsg := String.intercalate ", " (fields.map Prod.snd).flatten,
      scheduledEdit := none, apiCalls := [] }
  | .primitive _ =>
    { errorMsg := fallbackMsg, scheduledEdit := none, apiCalls := [] }

/-- The modal form state handleEdit produces: editingPrice set, the modal
opened, and the form reset to the price's sku, district and price. -/
structure EditFormState where
  editingPrice : Option PublishedPrice
  modalOpen : Bool
  formSkuId : Nat
  formDistrictId : Nat
  formPrice : ℚ
deriving DecidableEq, Repr

/-- handleEdit from PriceManagement. -/
def handleEditState (p : PublishedPrice) : EditFormState :=
  { editingPrice := some p, modalOpen := true, formSkuId := p.sku.id,
    formDistrictId := p.district.id, formPrice := p.price }

/-- Raw values of the publish-price form: the sku select value, the parsed
numeric value of the price input (none when empty), and the district
select value ("" when the blank option is chosen). -/
structure PriceFormValues where
  sku_id : String
  price : Option ℚ
  district_id : String
deriving DecidableEq, Repr

/-- Validation message of the sku_id required rule. -/
def requiredSkuMsg : String := "Please select a product"

/-- Validation message of the price required rule. -/
def requiredPriceMsg : String := "Price is required"

/-- Validation message of the price min rule (min value 0.01). -/
def minPriceMsg : String := "Price must be greater than 0"

/-- The react-hook-form validation induced by the register options of the
two validated fields: sku_id is required (the blank option has value ""),
price is required and must be at least 0.01.  district_id has no rule. -/
def validatePriceForm (v : PriceFormValues) : List String :=
  (if v.sku_id = "" then [requiredSkuMsg] else []) ++
  (match v.price with
   | none => [requiredPriceMsg]
   | some p => if p < 0.01 then [minPriceMsg] else [])

/-- parseInt on a select-produced value: the selects only ever hold "" or a
decimal numeral, so the embedding returns none (NaN) for anything else. -/
def jsParseInt (s : String) : Option Nat :=
  if s ≠ "" ∧ s.data.all Char.isDigit then
    some (s.data.foldl (fun n c => n * 10 + (c.toNat - 48)) 0)
  else none

/-- The processedData conversion in onSubmit: parseInt on sku_id,
parseFloat on price (the identity on the already-parsed numeric value),
and parseInt on district_id when that string is truthy (nonempty),
undefined otherwise. -/
def processPriceForm (v : PriceFormValues) : ProcessedPriceData :=
  { sku_id := jsParseInt v.sku_id,
    price := v.price,
    district_id := if v.district_id = "" then none else jsParseInt v.district_id }

/-- What a submission of the form results in: blocked by validation (no
request), a createPublishedPrice request, or an updatePublishedPrice
request when a price is being edited. -/
inductive SubmitAction
  | blocked (errors : List String)
  | createRequest (payload : ProcessedPriceData)
  | updateRequest (id : Nat) (payload : ProcessedPriceData)
deriving DecidableEq, Repr

/-- handleSubmit(onSubmit): react-hook-form runs the registered validators
and only calls onSubmit when none fails; onSubmit then builds
processedData and mutates the update mutation when editingPrice is set,
the create mutation otherwise. -/
def submitPriceForm (editingPrice : Option PublishedPrice)
    (v : PriceFormValues) : SubmitAction :=
  let errors := validatePriceForm v
  if errors.isEmpty then
    match editingPrice with
    | some p => .updateRequest p.id (processPriceForm v)
    | none => .createRequest (processPriceForm v)
  else .blocked errors

/-! ## Compliance rendering
Embedding of the compliance cells of PriceManagement (src/unnamed/part_005)
and the statistics of the retailer CompliancePage (src/unnamed/part_006). -/

/-- Class of the markup cell in PriceManagement: red above the hardcoded
10 threshold, green otherwise. -/
def markupTextClass (markup : ℚ) : String :=
  if markup > 10 then "text-red-600" else "text-green-600"

/-- Badge text of the status cell: driven by the server compliant flag. -/
def complianceBadgeText (compliant : Bool) : String :=
  if compliant then "Compliant" else "Non-compliant"

/-- Badge variant of the status cell. -/
def complianceBadgeVariant (compliant : Bool) : String :=
  if compliant then "success" else "danger"

/-- The numbers the CompliancePage renders. -/
structure ComplianceStats where
  totalPrices : Nat
  compliantPrices : Nat
  nonCompliantPrices : Nat
  complianceRate : ℚ
deriving DecidableEq, Repr

/-- The statistics computed at the top of CompliancePage from the published
price list: a count of prices whose compliant flag is set, its complement,
and the percentage compliant (0 for an empty list). -/
def compliancePageStats (prices : List PublishedPrice) : ComplianceStats :=
  let total := prices.length
  let compliant := (prices.filter (fun p => p.compliant)).length
  { totalPrices := total,
    compliantPrices := compliant,
    nonCompliantPrices := total - compliant,
    complianceRate :=
      if 0 < total then (compliant : ℚ) / (total : ℚ) * 100 else 0 }

/-- A concrete price the server marked compliant with markup 12. -/
def compliantHighMarkup : PublishedPrice :=
  { id := 1, sku := ureaSKU, district := hillDistrict, price := 60,
    compliant := true, markup_percentage := 12 }

/-- A concrete price the server marked non-compliant with markup 2. -/
def nonCompliantLowMarkup : PublishedPrice :=
  { id := 2, sku := ureaSKU, district := hillDistrict, price := 45,
    compliant := false, markup_percentage := 2 }

/-- Concrete form values with no product chosen. -/
def emptySkuForm : PriceFormValues :=
  { sku_id := "", price := some 50, district_id := "" }

/-- Concrete valid form values: product 3 at 49.5, no district chosen. -/
def validPriceForm : PriceFormValues :=
  { sku_id := "3", price := some (99 / 2), district_id := "" }

/-- The payload the valid form values process into. -/
def validPricePayload : ProcessedPriceData :=
  { sku_id := some 3, price := some (99 / 2), district_id := none }

/-! ## DataTable sorting
Embedding of src/components/ui/DataTable.tsx.  Column values are taken in
a linear order; a spec-conformant Array.prototype.sort with a consistent
comparator is a stable sort by that comparator, which is exactly
List.mergeSort on the comparator's non-positive relation. -/

/-- Sort direction of the DataTable sortConfig. -/
inductive SortDirection
  | asc
  | desc
deriving DecidableEq, Repr

/-- The sortConfig state: chosen column key and direction. -/
structure SortConfig where
  key : String
  direction : SortDirection
deriving DecidableEq, Repr

/-- handleSort: clicking a header sorts ascending, unless that same column
is already sorted ascending, in which case it flips to descending. -/
def handleSort (cfg : Option SortConfig) (key : String) : SortConfig :=
  let direction : SortDirection :=
    match cfg with
    | some c => if c.key = key ∧ c.direction = .asc then .desc else .asc
    | none => .asc
  { key := key, direction := direction }

/-- The comparator passed to sort: -1/1 per the direction when the column
values differ, 0 otherwise. -/
def sortComparator {α : Type} [LinearOrder α] (dir : SortDirection)
    (a b : α) : Int :=
  if a < b then (match dir with | .asc => -1 | .desc => 1)
  else if b < a then (match dir with | .asc => 1 | .desc => -1)
  else 0

/-- sortedData: the input rows when no sort column is chosen, otherwise a
stable sort of a copy of the rows by the comparator on the chosen
column's values (val models the a[sortConfig.key] access). -/
def sortedData {α β : Type} [LinearOrder α] (val : String → β → α)
    (cfg : Option SortConfig) (data : List β) : List β :=
  match cfg with
  | none => data
  | some c =>
    data.mergeSort (fun a b =>
      decide (sortComparator c.direction (val c.key a) (val c.key b) ≤ 0))

end SKUFrontend

namespace SKUFrontend

/-! ## Theorems -/

/-- C1: with the auth context's isAuthenticated (user present), once loading
has finished: an unauthenticated visitor is redirected to /login and no
children are rendered; an authenticated user whose role is outside the
allowed list is redirected to their own role's dashboard and no children
are rendered; the children render exactly when a user is present and their
role is in the allowed list. -/
theorem protectedRoute_role_gating (user : Option Role) (allowed : List Role) :
    (user = none →
      protectedRouteEffect false (isAuthenticatedOf user) user allowed = .push "/login" ∧
      protectedRouteRender false (isAuthenticatedOf user) user allowed = .nothing) ∧
    (∀ u, user = some u → u ∉ allowed →
      protectedRouteEffect false (isAuthenticatedOf user) user allowed
        = .push (dashboardFor u) ∧
      protectedRouteRender false (isAuthenticatedOf user) user allowed = .nothing) ∧
    (protectedRouteRender false (isAuthenticatedOf user) user allowed = .childrenOut ↔
      ∃ u, user = some u ∧ u ∈ allowed) ∧
    (∀ u, user = some u → u ∈ allowed →
      protectedRouteEffect false (isAuthenticatedOf user) user allowed = .stay) := by
  rcases user with _ | u
  · simp [protectedRouteEffect, protectedRouteRender, isAuthenticatedOf]
  · by_cases hu : u ∈ allowed <;>
      simp [protectedRouteEffect, protectedRouteRender, isAuthenticatedOf, hu]

/-- Closed instance of C1: a farmer visiting an admin-only page is
redirected to the farmer dashboard with nothing rendered. -/
theorem protectedRoute_role_gating_witness :
    protectedRouteEffect false (isAuthenticatedOf (some .farmer)) (some .farmer)
      [.gov_admin] = .push "/dashboard/farmer" ∧
    protectedRouteRender false (isAuthenticatedOf (some .farmer)) (some .farmer)
      [.gov_admin] = .nothing :=
  (protectedRoute_role_gating (some .farmer) [.gov_admin]).2.1 .farmer rfl (by decide)

/-- C2: Start Review is offered exactly for a pending complaint, Resolve
exactly for an under_review complaint, the detail modal offers the same
controls as the list card, and a complaint in any other status gets no
status-changing control. -/
theorem complaint_controls_fixed_transitions (s : String) :
    (ComplaintControl.startReview ∈ listCardControls s ↔ s = "pending") ∧
    (ComplaintControl.resolve ∈ listCardControls s ↔ s = "under_review") ∧
    detailModalControls s = listCardControls s ∧
    startReviewTargetStatus = "under_review" ∧
    (s ≠ "pending" → s ≠ "under_review" → listCardControls s = []) := by
  by_cases h1 : s = "pending" <;> by_cases h2 : s = "under_review" <;>
    simp_all [listCardControls, detailModalControls, startReviewTargetStatus]

/-- Closed instance of C2: a resolved complaint gets no status-changing
control. -/
theorem complaint_controls_fixed_transitions_witness :
    listCardControls "resolved" = [] :=
  (complaint_controls_fixed_transitions "resolved").2.2.2.2 (by decide) (by decide)

/-- C3 counterexample: the frontend handles a seventh complaint status,
waiting_response: it appears in the Complaint.status type and in the status
filter dropdown, and getStatusColor gives it its own orange color, yet it is
not among the six statuses the claim enumerates. -/
theorem complaint_status_waiting_response_cex :
    "waiting_response" ∈ complaintStatusValues ∧
    "waiting_response" ∈ statusFilterOptions ∧
    getStatusColor "waiting_response" = "bg-orange-100 text-orange-800" ∧
    "waiting_response" ∉
      ["pending", "under_review", "investigation", "resolved", "rejected",
       "closed"] := by
  refine ⟨by decide, by decide, by decide, by decide⟩

/-- C3 amended: the statuses the frontend types, filters on, colors and
renders are exactly the seven values pending, under_review, investigation,
waiting_response, resolved, rejected, closed: the type union lists exactly
them, the filter dropdown offers exactly them plus the catch-all option,
and getStatusColor and getStatusIcon give each of them its switch case. -/
theorem complaint_statuses_are_the_seven :
    complaintStatusValues =
      ["pending", "under_review", "investigation", "waiting_response",
       "resolved", "rejected", "closed"] ∧
    statusFilterOptions = "all" :: complaintStatusValues ∧
    complaintStatusValues.map getStatusColor =
      ["bg-yellow-100 text-yellow-800", "bg-blue-100 text-blue-800",
       "bg-purple-100 text-purple-800", "bg-orange-100 text-orange-800",
       "bg-green-100 text-green-800", "bg-red-100 text-red-800",
       "bg-gray-100 text-gray-800"] ∧
    complaintStatusValues.map getStatusIcon =
      ["ClockIcon", "EyeIcon", "ExclamationTriangleIcon", "ClockIcon",
       "CheckCircleIcon", "XCircleIcon", "XCircleIcon"] := by
  refine ⟨rfl, rfl, by decide, by decide⟩

/-- Unfolding of the district-specific find predicate. -/
theorem districtRefMatch_iff (skuId dId : Nat) (r : ReferencePrice) :
    districtRefMatch skuId dId r = true ↔
      r.sku.id = skuId ∧ ∃ d, r.district = some d ∧ d.id = dId := by
  cases h : r.district <;> simp [districtRefMatch, h]

/-- Unfolding of the global-fallback find predicate. -/
theorem globalRefMatch_iff (skuId : Nat) (r : ReferencePrice) :
    globalRefMatch skuId r = true ↔ r.sku.id = skuId ∧ r.district = none := by
  simp [globalRefMatch, Option.isNone_iff_eq_none]

/-- C4 counterexample: a reference price scoped to a district with id 0
matches SKU 1 and district 0, yet getReferencePrice for SKU 1 and district
id 0 skips the district lookup (JavaScript's if (districtId) treats 0 as
falsy) and returns nothing instead of the matching district-scoped price. -/
theorem getReferencePrice_zero_district_cex :
    districtRefMatch 1 0 zeroScopedRef = true ∧
    getReferencePrice 1 (some 0) [zeroScopedRef] = none := by
  refine ⟨by decide, by decide⟩

/-- C4 amended: for a nonzero district id, getReferencePrice returns a
district-scoped reference price (matching both the SKU id and the district
id) when one exists in the list; otherwise it returns the first reference
price for that SKU whose district field is null; when neither exists it
returns nothing.  When no district id is given — or the district id is 0,
which the JavaScript truthiness test treats like absence — only the global
lookup happens. -/
theorem getReferencePrice_spec (skuId dId : Nat) (hd : dId ≠ 0)
    (refs : List ReferencePrice) :
    ((∃ r ∈ refs, districtRefMatch skuId dId r) →
      ∃ r, getReferencePrice skuId (some dId) refs = some r ∧ r ∈ refs ∧
        r.sku.id = skuId ∧ ∃ d, r.district = some d ∧ d.id = dId) ∧
    ((∀ r ∈ refs, ¬ districtRefMatch skuId dId r) →
      ((∃ r ∈ refs, globalRefMatch skuId r) →
        ∃ r, getReferencePrice skuId (some dId) refs = some r ∧ r ∈ refs ∧
          r.sku.id = skuId ∧ r.district = none) ∧
      ((∀ r ∈ refs, ¬ globalRefMatch skuId r) →
        getReferencePrice skuId (some dId) refs = none)) ∧
    (getReferencePrice skuId none refs = refs.find? (globalRefMatch skuId) ∧
     getReferencePrice skuId (some 0) refs = refs.find? (globalRefMatch skuId)) := by
  refine ⟨?_, ?_, rfl, by simp [getReferencePrice]⟩
  · rintro ⟨r, hr, hpr⟩
    have hsome : (refs.find? (districtRefMatch skuId dId)).isSome := by
      rw [List.find?_isSome]
      exact ⟨r, hr, hpr⟩
    obtain ⟨r0, hr0⟩ := Option.isSome_iff_exists.mp hsome
    have hmem := List.mem_of_find?_eq_some hr0
    have hmatch := (districtRefMatch_iff skuId dId r0).mp (List.find?_some hr0)
    exact ⟨r0, by simp [getReferencePrice, hd, hr0], hmem, hmatch.1, hmatch.2⟩
  · intro hnone
    have hfd : refs.find? (districtRefMatch skuId dId) = none :=
      List.find?_eq_none.mpr (by simpa using hnone)
    constructor
    · rintro ⟨r, hr, hpr⟩
      have hsome : (refs.find? (globalRefMatch skuId)).isSome := by
        rw [List.find?_isSome]
        exact ⟨r, hr, hpr⟩
      obtain ⟨r0, hr0⟩ := Option.isSome_iff_exists.mp hsome
      have hmem := List.mem_of_find?_eq_some hr0
      have hmatch := (globalRefMatch_iff skuId r0).mp (List.find?_some hr0)
      exact ⟨r0, by simp [getReferencePrice, hd, hfd, hr0], hmem, hmatch.1, hmatch.2⟩
    · intro hng
      have hfg : refs.find? (globalRefMatch skuId) = none :=
        List.find?_eq_none.mpr (by simpa using hng)
      simp [getReferencePrice, hd, hfd, hfg]

/-- Closed instance of C4 (amended): with a district-scoped price for SKU 1
in district 7 and a global price for SKU 1 both present, the lookup for
district 7 returns the district-scoped one. -/
theorem getReferencePrice_spec_witness :
    ∃ r, getReferencePrice 1 (some 7) [globalUreaRef, hillUreaRef] = some r ∧
      r ∈ [globalUreaRef, hillUreaRef] ∧
      r.sku.id = 1 ∧ ∃ d, r.district = some d ∧ d.id = 7 :=
  (getReferencePrice_spec 1 7 (by decide) [globalUreaRef, hillUreaRef]).1
    ⟨hillUreaRef, by simp,
     by simp [districtRefMatch, hillUreaRef, ureaSKU, hillDistrict]⟩

/-- C5: when the create-published-price request fails with a server error
array containing the overlap message, the handler sets the duplicate-price
notice and schedules handleEdit on the retailer's existing published price
for the submitted SKU (putting the form into edit mode on that price); the
handler itself issues no HTTP call in any branch, so it creates or alters
no price. -/
theorem overlap_error_switches_to_edit (msgs : List String)
    (v : ProcessedPriceData) (prices : List PublishedPrice) (fb : String)
    (p : PublishedPrice)
    (hmem : overlapServerMsg ∈ msgs)
    (hfind : existingPriceFor v prices = some p) :
    (onCreatePriceError (.arr msgs) (some v) (some prices) fb).errorMsg
      = duplicateActiveNotice ∧
    (onCreatePriceError (.arr msgs) (some v) (some prices) fb).scheduledEdit
      = some p ∧
    p ∈ prices ∧ v.sku_id = some p.sku.id ∧
    (handleEditState p).editingPrice = some p ∧
    (handleEditState p).modalOpen = true ∧
    (∀ ed mv pp fb2, (onCreatePriceError ed mv pp fb2).apiCalls = []) := by
  obtain ⟨n, hn, hq⟩ : ∃ n, v.sku_id = some n ∧
      prices.find? (fun q => q.sku.id == n) = some p := by
    unfold existingPriceFor at hfind
    cases hv : v.sku_id with
    | none => rw [hv] at hfind; exact absurd hfind (by simp)
    | some n => exact ⟨n, rfl, by rwa [hv] at hfind⟩
  have hpn : p.sku.id = n := by
    have := List.find?_some hq
    simpa using this
  refine ⟨by simp [onCreatePriceError, hmem],
    by simp [onCreatePriceError, hmem, existingPriceFor, hn, hq],
    List.mem_of_find?_eq_some hq, by rw [hn, hpn],
    rfl, rfl, ?_⟩
  intro ed mv pp fb2
  cases ed with
  | missing => rfl
  | arr msgs2 =>
    by_cases h : overlapServerMsg ∈ msgs2 <;>
      simp [onCreatePriceError, h]
  | fieldErrors fields => rfl
  | primitive s => rfl

/-- Closed instance of C5: an overlap error array with the existing price
for SKU 1 loaded yields the duplicate notice and schedules editing of that
price. -/
theorem overlap_error_switches_to_edit_witness :
    (onCreatePriceError (.arr [overlapServerMsg])
        (some { sku_id := some 1, price := some 60, district_id := none })
        (some [compliantHighMarkup]) "fallback").errorMsg
      = duplicateActiveNotice ∧
    (onCreatePriceError (.arr [overlapServerMsg])
        (some { sku_id := some 1, price := some 60, district_id := none })
        (some [compliantHighMarkup]) "fallback").scheduledEdit
      = some compliantHighMarkup :=
  have h := overlap_error_switches_to_edit [overlapServerMsg]
    { sku_id := some 1, price := some 60, district_id := none }
    [compliantHighMarkup] "fallback" compliantHighMarkup (by simp) (by rfl)
  ⟨h.1, h.2.1⟩

/-- C6 counterexample: a request failing with status 401 and an unset
_retry flag, while both tokens are stored and the refresh succeeds, is
re-sent by the response interceptor with the fresh access token, and the
stored token pair is replaced — the client does more than surface an
error. -/
theorem interceptor_resend_cex :
    responseInterceptor { status := some 401, retryFlag := false }
        storedTokens (.success freshTokens)
      = (.resend { status := some 401, retryFlag := true } "a1",
         { access := some "a1", refresh := some "r1" }) ∧
    ({ access := some "a1", refresh := some "r1" } : TokenStore)
      ≠ storedTokens := by
  refine ⟨rfl, by decide⟩

/-- C6 amended: a failed request is passed through unchanged with the
stored tokens untouched in every case except one: a 401 response on a
request not yet retried while a refresh token is stored; in that case the
interceptor refreshes and re-sends the request once with the new tokens
stored, or, when the refresh fails, clears both tokens and redirects to
/login. -/
theorem failed_requests_pass_through (req : FailedRequest) (store : TokenStore)
    (ro : RefreshOutcome) :
    (responseInterceptor req store ro = (.passThrough, store) ↔
      ¬(req.status = some 401 ∧ req.retryFlag = false ∧ store.refresh.isSome)) ∧
    (req.status = some 401 → req.retryFlag = false → store.refresh.isSome →
      (∀ t, ro = .success t →
        responseInterceptor req store ro
          = (.resend { req with retryFlag := true } t.access,
             { access := some t.access, refresh := some t.refresh })) ∧
      (ro = .failure →
        responseInterceptor req store ro
          = (.redirectLogin, { access := none, refresh := none }))) := by
  by_cases h : req.status = some 401 ∧ req.retryFlag = false
  · cases hr : store.refresh with
    | none =>
      cases ro <;> simp [responseInterceptor, h, hr]
    | some r =>
      cases ro with
      | success t =>
        simp [responseInterceptor, h, hr, h.1, h.2]
      | failure =>
        simp [responseInterceptor, h, hr, h.1, h.2]
  · have h1 : ¬(req.status = some 401 ∧ req.retryFlag = false ∧
        store.refresh.isSome) := by
      intro hx
      exact h ⟨hx.1, hx.2.1⟩
    constructor
    · simp [responseInterceptor, h, h1]
    · intro ha hb _
      exact absurd ⟨ha, hb⟩ h


/-- Closed instance of C6 (amended): a 500 failure is passed through with
the token store untouched. -/
theorem failed_requests_pass_through_witness :
    responseInterceptor { status := some 500, retryFlag := false }
        storedTokens .failure = (.passThrough, storedTokens) :=
  (failed_requests_pass_through { status := some 500, retryFlag := false }
    storedTokens .failure).1.mpr (by decide)

/-- C9: a 401 failure on a not-yet-retried request with a refresh token
stored makes the interceptor store the refreshed pair and re-send the
original request, whose _retry flag is now set — and any failure of a
request whose _retry flag is set is passed through, so a request is never
retried a second time; a failed refresh clears both tokens and redirects
to /login; every failure with any other status is passed through with the
store unchanged. -/
theorem interceptor_401_refresh (req : FailedRequest) (store : TokenStore) :
    (∀ t, req.status = some 401 → req.retryFlag = false → store.refresh.isSome →
      responseInterceptor req store (.success t)
        = (.resend { status := req.status, retryFlag := true } t.access,
           { access := some t.access, refresh := some t.refresh })) ∧
    (req.status = some 401 → req.retryFlag = false → store.refresh.isSome →
      responseInterceptor req store .failure
        = (.redirectLogin, { access := none, refresh := none })) ∧
    (∀ ro, req.status ≠ some 401 →
      responseInterceptor req store ro = (.passThrough, store)) ∧
    (∀ ro, req.retryFlag = true →
      responseInterceptor req store ro = (.passThrough, store)) := by
  refine ⟨?_, ?_, ?_, ?_⟩
  · intro t h1 h2 h3
    obtain ⟨r, hr⟩ := Option.isSome_iff_exists.mp h3
    simp [responseInterceptor, h1, h2, hr]
  · intro h1 h2 h3
    obtain ⟨r, hr⟩ := Option.isSome_iff_exists.mp h3
    simp [responseInterceptor, h1, h2, hr]
  · intro ro h1
    simp [responseInterceptor, h1]
  · intro ro h1
    simp [responseInterceptor, h1]

/-- Closed instance of C9: the refresh-success branch at a concrete 401. -/
theorem interceptor_401_refresh_witness :
    responseInterceptor { status := some 401, retryFlag := false }
        storedTokens (.success freshTokens)
      = (.resend { status := some 401, retryFlag := true }
           freshTokens.access,
         { access := some freshTokens.access,
           refresh := some freshTokens.refresh }) :=
  (interceptor_401_refresh { status := some 401, retryFlag := false }
    storedTokens).1 freshTokens rfl rfl (by decide)

/-- C7 counterexample: for a price the server marked compliant but with
markup 12, the badge renders the server verdict yet the markup cell is
classed red by the frontend's own hardcoded 10-percent threshold, while a
markup of 2 is classed green; and the CompliancePage statistics (counts
and the 50 percent rate here) are computed client-side from the compliant
flags of the fetched price list, not received from the server. -/
theorem compliance_client_side_cex :
    complianceBadgeText compliantHighMarkup.compliant = "Compliant" ∧
    markupTextClass compliantHighMarkup.markup_percentage = "text-red-600" ∧
    markupTextClass nonCompliantLowMarkup.markup_percentage
      = "text-green-600" ∧
    compliancePageStats [compliantHighMarkup, nonCompliantLowMarkup]
      = { totalPrices := 2, compliantPrices := 1, nonCompliantPrices := 1,
          complianceRate := 50 } := by
  refine ⟨rfl, by decide, by decide, ?_⟩
  simp [compliancePageStats, compliantHighMarkup, nonCompliantLowMarkup,
    List.filter]
  norm_num

/-- Count of compliant flags in a price list equals the length of the
filtered list CompliancePage builds. -/
theorem compliantPrices_eq_count (prices : List PublishedPrice) :
    (prices.filter (fun p => p.compliant)).length
      = (prices.map (fun p => p.compliant)).count true := by
  induction prices with
  | nil => rfl
  | cons p ps ih =>
    cases hp : p.compliant <;>
      simp [List.count_cons, List.filter_cons, hp, ih]

/-- C7 amended: the per-price compliance verdict rendered is exactly the
server flag (badge text and variant are determined by it alone) and the
markup figure rendered is the server value; but the frontend computes
derived compliance presentation of its own: the markup cell class compares
the markup against a hardcoded threshold of 10, and the CompliancePage
statistics are aggregates of the server-provided compliant flags (counts
summing to the total and the percentage rate), not values received from
the server. -/
theorem compliance_rendering_amended (prices : List PublishedPrice)
    (b : Bool) (m : ℚ) :
    (complianceBadgeText b = "Compliant" ↔ b = true) ∧
    (complianceBadgeVariant b = "success" ↔ b = true) ∧
    (markupTextClass m = "text-red-600" ↔ m > 10) ∧
    (compliancePageStats prices).totalPrices = prices.length ∧
    (compliancePageStats prices).compliantPrices
      = (prices.map (fun p => p.compliant)).count true ∧
    (compliancePageStats prices).compliantPrices
        + (compliancePageStats prices).nonCompliantPrices
      = (compliancePageStats prices).totalPrices := by
  refine ⟨by cases b <;> simp [complianceBadgeText],
    by cases b <;> simp [complianceBadgeVariant], ?_, rfl,
    compliantPrices_eq_count prices, ?_⟩
  · by_cases h : m > 10 <;> simp [markupTextClass, h]
  · have hle := List.length_filter_le (fun p => p.compliant) prices
    simp only [compliancePageStats]
    omega

/-- Closed instance of C7 (amended): the red class is exactly the markup
threshold judgment at markup 12. -/
theorem compliance_rendering_amended_witness :
    markupTextClass 12 = "text-red-600" :=
  (compliance_rendering_amended [] true 12).2.2.1.mpr (by norm_num)

/-- C8: a submission with no product selected or with a price below 0.01
fails validation with the register messages and sends no
createPublishedPrice request; a submission that passes validation sends
the request with sku_id through parseInt, price through parseFloat, and
district_id through parseInt when the field is given and undefined
otherwise. -/
theorem price_form_validation (v : PriceFormValues) :
    (v.sku_id = "" →
      requiredSkuMsg ∈ validatePriceForm v ∧
      submitPriceForm none v = .blocked (validatePriceForm v) ∧
      ∀ pl, submitPriceForm none v ≠ .createRequest pl) ∧
    (∀ p, v.price = some p → p < 0.01 →
      minPriceMsg ∈ validatePriceForm v ∧
      submitPriceForm none v = .blocked (validatePriceForm v) ∧
      ∀ pl, submitPriceForm none v ≠ .createRequest pl) ∧
    (validatePriceForm v = [] →
      submitPriceForm none v = .createRequest (processPriceForm v) ∧
      (processPriceForm v).sku_id = jsParseInt v.sku_id ∧
      (processPriceForm v).price = v.price ∧
      (v.district_id = "" → (processPriceForm v).district_id = none) ∧
      (v.district_id ≠ "" →
        (processPriceForm v).district_id = jsParseInt v.district_id)) := by
  refine ⟨?_, ?_, ?_⟩
  · intro h
    have hmem : requiredSkuMsg ∈ validatePriceForm v := by
      simp [validatePriceForm, h]
    have hne : validatePriceForm v ≠ [] := List.ne_nil_of_mem hmem
    have hblocked : submitPriceForm none v = .blocked (validatePriceForm v) := by
      simp [submitPriceForm, List.isEmpty_iff, hne]
    exact ⟨hmem, hblocked, fun pl hpl => by
      rw [hblocked] at hpl
      exact SubmitAction.noConfusion hpl⟩
  · intro p hp hlt
    have hmem : minPriceMsg ∈ validatePriceForm v := by
      simp [validatePriceForm, hp, hlt]
    have hne : validatePriceForm v ≠ [] := List.ne_nil_of_mem hmem
    have hblocked : submitPriceForm none v = .blocked (validatePriceForm v) := by
      simp [submitPriceForm, List.isEmpty_iff, hne]
    exact ⟨hmem, hblocked, fun pl hpl => by
      rw [hblocked] at hpl
      exact SubmitAction.noConfusion hpl⟩
  · intro h
    refine ⟨by simp [submitPriceForm, h], rfl, rfl, ?_, ?_⟩
    · intro hd
      simp [processPriceForm, hd]
    · intro hd
      simp [processPriceForm, hd]

/-- Closed instance of C8: an empty product selection is blocked with the
product message, and a valid submission for product 3 at 49.5 with no
district carries the parsed payload. -/
theorem price_form_validation_witness :
    requiredSkuMsg ∈ validatePriceForm emptySkuForm ∧
    submitPriceForm none validPriceForm = .createRequest validPricePayload :=
  ⟨(price_form_validation emptySkuForm).1 rfl |>.1,
   by
    have h3 : ("3" : String) ≠ "" := by decide
    have h := (price_form_validation validPriceForm).2.2
      (by norm_num [validatePriceForm, validPriceForm, h3])
    rw [h.1]
    rfl⟩

/-- Ascending comparator admits a column value exactly when the first value
is at most the second. -/
theorem sortComparator_asc_le {α : Type} [LinearOrder α] (a b : α) :
    sortComparator .asc a b ≤ 0 ↔ a ≤ b := by
  rcases lt_trichotomy a b with h | h | h
  · simp [sortComparator, h, h.le]
  · subst h
    simp [sortComparator]
  · simp [sortComparator, h, h.asymm, not_le.mpr h]

/-- Descending comparator admits a column value exactly when the second
value is at most the first. -/
theorem sortComparator_desc_le {α : Type} [LinearOrder α] (a b : α) :
    sortComparator .desc a b ≤ 0 ↔ b ≤ a := by
  rcases lt_trichotomy a b with h | h | h
  · simp [sortComparator, h, h.asymm, not_le.mpr h]
  · subst h
    simp [sortComparator]
  · simp [sortComparator, h, h.asymm, h.le]

/-- Sorting with the ascending comparator yields rows pairwise ordered by
the column's values. -/
theorem mergeSort_pairwise_asc {α β : Type} [LinearOrder α] (key : β → α)
    (l : List β) :
    (l.mergeSort (fun a b =>
        decide (sortComparator .asc (key a) (key b) ≤ 0))).Pairwise
      (fun a b => key a ≤ key b) := by
  have h := @List.sorted_mergeSort β
    (fun a b => decide (sortComparator .asc (key a) (key b) ≤ 0))
    (fun a b c hab hbc => by
      simp only [decide_eq_true_eq, sortComparator_asc_le] at *
      exact le_trans hab hbc)
    (fun a b => by
      simp only [Bool.or_eq_true, decide_eq_true_eq, sortComparator_asc_le]
      exact le_total (key a) (key b))
    l
  exact h.imp (by
    intro a b hab
    simpa [sortComparator_asc_le] using hab)

/-- Sorting with the descending comparator yields rows pairwise ordered
the other way. -/
theorem mergeSort_pairwise_desc {α β : Type} [LinearOrder α] (key : β → α)
    (l : List β) :
    (l.mergeSort (fun a b =>
        decide (sortComparator .desc (key a) (key b) ≤ 0))).Pairwise
      (fun a b => key b ≤ key a) := by
  have h := @List.sorted_mergeSort β
    (fun a b => decide (sortComparator .desc (key a) (key b) ≤ 0))
    (fun a b c hab hbc => by
      simp only [decide_eq_true_eq, sortComparator_desc_le] at *
      exact le_trans hbc hab)
    (fun a b => by
      simp only [Bool.or_eq_true, decide_eq_true_eq, sortComparator_desc_le]
      exact le_total (key b) (key a))
    l
  exact h.imp (by
    intro a b hab
    simpa [sortComparator_desc_le] using hab)

/-- C10: with no sort column chosen the rows render in input order; a
first click on a header sorts that column ascending and a repeated click
flips it to descending; with any sort configuration the rendered rows are
a permutation of the input, pairwise ordered by the chosen column's
values in the chosen direction.  The component sorts a spread copy, so
the input list itself is a separate, untouched value. -/
theorem dataTable_sorting {α β : Type} [LinearOrder α] (val : String → β → α)
    (data : List β) (k : String) :
    sortedData val none data = data ∧
    handleSort none k = { key := k, direction := .asc } ∧
    handleSort (some { key := k, direction := .asc }) k
      = { key := k, direction := .desc } ∧
    (∀ c : SortConfig, (sortedData val (some c) data).Perm data) ∧
    (sortedData val (some { key := k, direction := .asc }) data).Pairwise
      (fun a b => val k a ≤ val k b) ∧
    (sortedData val (some { key := k, direction := .desc }) data).Pairwise
      (fun a b => val k b ≤ val k a) := by
  refine ⟨rfl, rfl, by simp [handleSort], ?_, ?_, ?_⟩
  · intro c
    exact List.mergeSort_perm data _
  · exact mergeSort_pairwise_asc (val k) data
  · exact mergeSort_pairwise_desc (val k) data

/-- Closed instance of C10: the first click on the price header requests an
ascending sort. -/
theorem dataTable_sorting_witness :
    handleSort none "price" = { key := "price", direction := .asc } :=
  (dataTable_sorting (fun (_ : String) (n : ℕ) => n) ([] : List ℕ) "price").2.1

end SKUFrontend
